import Mathlib

/-!
Verification development for the battle-royale standalone extension
(src/extensions/battleroyale/standalone.mjs): a shallow embedding of its
arena shrinker, bullet registry and simulator, attack cooldown gate and
hazard reactor, together with theorems about them.

Conventions of the embedding:
* JavaScript numbers holding cell coordinates are modelled as `Int`;
  sizes, counters and tick durations as `Nat`.
* The external game-map cell lookup `helper.gameMap.getCell(coord, layer)`
  is an oracle `MapCoord → Layer → Bool` (truthiness of the returned cell).
* A bare `return` in a function documented to return a Boolean success
  indicator yields `undefined`, which is falsy; such a result is modelled
  as `false` under the function's documented Boolean contract.
* A JavaScript `Map` is an insertion-ordered association list with unique
  keys; a JavaScript `Set` of strings is a list without duplicates.
* Code paths on which the source would throw a TypeError (iterating or
  dereferencing `undefined`) are modelled by an `Option` result, `none`
  standing for the thrown exception.
* The runtime timer queue backing `setTimeout` cooldown releases is
  modelled explicitly as a list of (due time, playerID) pairs, fired by
  `runTimersUpTo`.
-/

/-- Map coordinate as used by the extension: a map name plus integer cell
coordinates (the fields of the external common/maplib MapCoord). -/
structure MapCoord where
  mapName : String
  x : Int
  y : Int
deriving DecidableEq

/-- Modelled from the spec: `MapCoord.fromObject` of the external map
library (outside the embedded source) rebuilds a coordinate object from its
plain fields; on the modelled fields it is the identity. -/
def MapCoord.fromObject (c : MapCoord) : MapCoord := c

/-- Modelled from the spec: `MapCoord.copy` of the external map library
clones a coordinate; on the modelled immutable value it is the identity. -/
def MapCoord.copy (c : MapCoord) : MapCoord := c

/-- Modelled from the spec: the three layers LAYER_BULLET, LAYER_FIRE and
LAYER_OBSTACLE whose descriptors live in the extension's client-side common
module, outside the embedded source; only their identity matters here. -/
inductive Layer where
  | bullet
  | fire
  | obstacle
deriving DecidableEq

/-- Facing values of an attack; the source indexes `Facing2Direction` with
the strings U, D, R and L. -/
inductive Facing where
  | U
  | D
  | R
  | L
deriving DecidableEq

/-- Facing2Direction (source lines 12-17): displacement per facing. -/
def Facing2Direction : Facing → Int × Int
  | Facing.U => (0, 1)
  | Facing.D => (0, -1)
  | Facing.R => (1, 0)
  | Facing.L => (-1, 0)

/-- BULLET_SPEED (source line 8): milliseconds per block of bullet travel. -/
def BULLET_SPEED : Nat := 100

/-- BULLET_LIFE (source line 9): bullet lifetime in ticks (blocks). -/
def BULLET_LIFE : Nat := 5

/-- MAP_UPDATE_PERIOD (source line 10): milliseconds per arena tick. -/
def MAP_UPDATE_PERIOD : Nat := 20000

/-- An arena cell as stored in a configured cell set: position plus
optional width and height (`insideMap` defaults missing dimensions to 1
via the `?? 1` operator). -/
structure Cell where
  x : Int
  y : Int
  w : Option Nat
  h : Option Nat
deriving DecidableEq

/-- A configured cell set, of which each map may carry several; the source
destructures the `cells` field of every set. -/
structure CellSet where
  cells : List Cell
deriving DecidableEq

/-- A live bullet (source line 155): facing, current coordinate, and the
`duration` age counter starting at 0. -/
structure Bullet where
  facing : Facing
  bulletCoord : MapCoord
  duration : Nat
deriving DecidableEq

/-- A tracked player as seen through `gameState.getPlayers()`: only the
map coordinate is consulted by this extension. -/
structure Player where
  mapCoord : MapCoord
deriving DecidableEq

/-- Mutable simulation state owned by the extension instance: the arena
registry, the bullet registry with its monotonic ID counter, the cooldown
set, and the pending `setTimeout` cooldown releases (due time, playerID). -/
structure BRState where
  arenaOfMaps : List (String × List CellSet)
  bullets : List (Nat × Bullet)
  bulletID : Nat
  cooldown : List String
  pending : List (Nat × String)
deriving DecidableEq

/-- Containment of a coordinate in one arena cell (source lines 118-121),
with the `?? 1` defaults for missing width and height. -/
def cellContains (cell : Cell) (cellCoord : MapCoord) : Bool :=
  let width : Int := (cell.w.getD 1 : Nat)
  let height : Int := (cell.h.getD 1 : Nat)
  decide (cell.x ≤ cellCoord.x) && decide (cellCoord.x < cell.x + width) &&
    decide (cell.y ≤ cellCoord.y) && decide (cellCoord.y < cell.y + height)

/-- insideMap (source lines 115-127): whether the coordinate lies in some
arena cell of its map. Returns `none` when the coordinate's map has no
arena entry: `this.arenaOfMaps.get(mapName)` is then `undefined` and the
`for ... of` over it throws. -/
def insideMap (arenaOfMaps : List (String × List CellSet)) (cellCoord : MapCoord) :
    Option Bool :=
  match arenaOfMaps.lookup cellCoord.mapName with
  | none => none
  | some cellSets =>
      some (cellSets.any fun cs => cs.cells.any fun cell => cellContains cell cellCoord)

/-- Teleport (source lines 286-291): copy the coordinate, move it to the
fixed cell (1,1) of the same map, and emit the forced relocation of the
player to that target. -/
def teleport (mapCoord : MapCoord) (playerID : String) : String × MapCoord :=
  (playerID, { MapCoord.copy mapCoord with x := 1, y := 1 })

/-- Initial coordinate of a spawned bullet (source lines 152-154): the
attack origin displaced one step along the facing. -/
def spawnCoord (mapCoord : MapCoord) (facing : Facing) : MapCoord :=
  { MapCoord.copy mapCoord with
      x := mapCoord.x + (Facing2Direction facing).1,
      y := mapCoord.y + (Facing2Direction facing).2 }

/-- c2s_attack up to the spawn (source lines 137-155 and 220): convert the
coordinate, reject an origin outside the arena, apply the cooldown gate,
register the cooldown with its scheduled release `cooldownMs` after the
current time `now`, and register the new bullet with age 0 under the next
bullet ID. The bullet-layer broadcast and the per-bullet interval are
external effects; the interval's behaviour is modelled separately by
`updateBulletTick`. `none` models the thrown TypeError when the origin's
map has no arena entry; bare `return` results are modelled as `false`. -/
def c2s_attack (cooldownMs now : Nat) (playerID : String) (mapCoord0 : MapCoord)
    (facing : Facing) (s : BRState) : Option (Bool × BRState) :=
  let mapCoord := MapCoord.fromObject mapCoord0
  match insideMap s.arenaOfMaps mapCoord with
  | none => none
  | some inside =>
    if !inside then some (false, s)
    else if playerID ∈ s.cooldown then some (false, s)
    else
      let s1 : BRState :=
        { s with
            cooldown := s.cooldown ++ [playerID],
            pending := s.pending ++ [(now + cooldownMs, playerID)] }
      let bulletID := s1.bulletID
      some (true,
        { s1 with
            bulletID := bulletID + 1,
            bullets := s1.bullets ++ [(bulletID, ⟨facing, spawnCoord mapCoord facing, 0⟩)] })

/-- Modelled from the spec: the runtime timer queue. All `setTimeout`
cooldown releases (source lines 146-148, `this.cooldown.delete`) whose due
time has passed by `now` fire in order; the rest stay pending. -/
def runTimersUpTo (now : Nat) (s : BRState) : BRState :=
  { s with
      cooldown :=
        (s.pending.filter fun e => decide (e.1 ≤ now)).foldl
          (fun cdn e => cdn.erase e.2) s.cooldown,
      pending := s.pending.filter fun e => decide (now < e.1) }

/-- Advance of a bullet by one tick (source lines 173-175): displace the
coordinate by the facing's unit vector and increment the age. -/
def advanceBullet (b : Bullet) : Bullet :=
  { b with
      bulletCoord :=
        { b.bulletCoord with
            x := b.bulletCoord.x + (Facing2Direction b.facing).1,
            y := b.bulletCoord.y + (Facing2Direction b.facing).2 },
      duration := b.duration + 1 }

/-- In-place update of the registry entry under a key, preserving the
insertion order of a JavaScript Map. -/
def mapUpdate (bullets : List (Nat × Bullet)) (bid : Nat) (b : Bullet) :
    List (Nat × Bullet) :=
  bullets.map fun q => if q.1 = bid then (q.1, b) else q

/-- Collision scan of a bullet tick (source lines 193-204): for each player
in order, find the first registry bullet whose x-coordinate equals the
player's x while the player's y is compared against `bulletCoord.y` of the
ticking bullet's closure (`tickY`); on a match, teleport the player, clear
the ticking bullet's interval, delete the matched bullet, and continue with
the next player. -/
def collisionScan (tickY : Int) (players : List (String × Player))
    (bullets : List (Nat × Bullet)) (tps : List (String × MapCoord))
    (cleared : Bool) : List (Nat × Bullet) × List (String × MapCoord) × Bool :=
  match players with
  | [] => (bullets, tps, cleared)
  | pp :: rest =>
    match bullets.find? (fun q =>
        decide (pp.2.mapCoord.x = q.2.bulletCoord.x) &&
          decide (pp.2.mapCoord.y = tickY)) with
    | none => collisionScan tickY rest bullets tps cleared
    | some q =>
        collisionScan tickY rest (bullets.filter fun r => r.1 != q.1)
          (tps ++ [teleport pp.2.mapCoord pp.1]) true

/-- Reason recorded for the termination test of a bullet tick, mirroring
the short-circuit order of the disjunction on source lines 176-178. -/
inductive RemoveReason where
  | expired
  | outsideArena
  | obstacle
deriving DecidableEq

/-- Observable outcome of one bullet tick: the registry afterwards, the
forced teleports performed, whether `clearInterval(updateBullet)` ran for
the ticking bullet's own interval, and which termination condition (if
any) fired. -/
structure TickOut where
  bullets : List (Nat × Bullet)
  teleports : List (String × MapCoord)
  clearedSelf : Bool
  terminated : Option RemoveReason
deriving DecidableEq

/-- One firing of a bullet's interval (source lines 171-217): look the
bullet up (a missing entry makes the field update on `undefined` throw,
modelled as `none`), advance it in place, then either terminate it - age
at the lifetime, or the new position outside the arena (a missing arena
entry again throws), or the new position on an obstacle cell - deleting it
without any collision check, or run the collision scan over all players.
The bullet-layer broadcasts are external effects and carry no state. -/
def updateBulletTick (getCell : MapCoord → Layer → Bool)
    (players : List (String × Player))
    (arenaOfMaps : List (String × List CellSet)) (bid : Nat)
    (bullets : List (Nat × Bullet)) : Option TickOut :=
  match bullets.lookup bid with
  | none => none
  | some b =>
    let b2 := advanceBullet b
    let bullets2 := mapUpdate bullets bid b2
    if b2.duration ≥ BULLET_LIFE then
      some ⟨bullets2.filter (fun q => q.1 != bid), [], true, some RemoveReason.expired⟩
    else
      match insideMap arenaOfMaps b2.bulletCoord with
      | none => none
      | some inside =>
        if !inside then
          some ⟨bullets2.filter (fun q => q.1 != bid), [], true,
            some RemoveReason.outsideArena⟩
        else if getCell b2.bulletCoord Layer.obstacle then
          some ⟨bullets2.filter (fun q => q.1 != bid), [], true,
            some RemoveReason.obstacle⟩
        else
          let scanned := collisionScan b2.bulletCoord.y players bullets2 [] false
          some ⟨scanned.1, scanned.2.1, scanned.2.2, none⟩

/-- An arena rectangle with explicit dimensions, as destructured by
`updateEdge` (which, unlike `insideMap`, applies no defaults). -/
structure Rect where
  x : Int
  y : Int
  w : Nat
  h : Nat
deriving DecidableEq

/-- A cell set of explicit rectangles as consumed by the arena shrinker. -/
structure RectSet where
  cells : List Rect
deriving DecidableEq

/-- updateEdge (source lines 229-246): append, for every rectangle of every
cell set, its four border strips of width `min(fireCounter, floor(w/2))`
and height `min(fireCounter, floor(h/2))` to the fire set, counting the
rectangles already fully consumed; the flag is `noUpdateCounter !=
totalCell`. JavaScript `Set.add` of fresh objects always inserts, so the
fire set is a list keeping duplicates. -/
def updateEdge (fires : List Rect) (cellSets : List RectSet) (fireCounter : Nat) :
    List Rect × Bool :=
  let folded := cellSets.foldl
    (fun acc cs => cs.cells.foldl
      (fun (acc : List Rect × Nat × Nat) r =>
        let wbound := min fireCounter (r.w / 2)
        let hbound := min fireCounter (r.h / 2)
        (acc.1 ++
          [⟨r.x, r.y, r.w, hbound⟩,
           ⟨r.x, r.y + (r.h : Int) - (hbound : Int), r.w, hbound⟩,
           ⟨r.x, r.y, wbound, r.h⟩,
           ⟨r.x + (r.w : Int) - (wbound : Int), r.y, wbound, r.h⟩],
         acc.2.1 + (if wbound == r.w / 2 && hbound == r.h / 2 then 1 else 0),
         acc.2.2 + 1))
      acc)
    (fires, 0, 0)
  (folded.1, folded.2.1 != folded.2.2)

/-- Observable outcome of one arena tick: the fire-layer broadcasts pushed
(map name with the fire snapshot at broadcast time), the forced teleports
of players standing on fire, and whether `clearInterval(updateMap)` halted
the scheduler. -/
structure ArenaTickOut where
  broadcasts : List (String × List Rect)
  teleports : List (String × MapCoord)
  halted : Bool
deriving DecidableEq

/-- Per-map loop of the arena tick (source lines 76-98): grow the shared
fire set for the map; if `updateEdge` reports no further update needed,
clear the interval and return at once - without broadcasting this map or
visiting the remaining maps; otherwise broadcast the accumulated fire set
for this map, relocate every player standing on a fire cell, and continue
with the next map. -/
def runMaps (getCell : MapCoord → Layer → Bool) (players : List (String × Player))
    (fireCounter : Nat) (fires : List Rect) :
    List (String × List RectSet) → ArenaTickOut
  | [] => ⟨[], [], false⟩
  | (mapName, cellSets) :: rest =>
    let grown := updateEdge fires cellSets fireCounter
    if !grown.2 then ⟨[], [], true⟩
    else
      let tps := (players.filter fun p => getCell p.2.mapCoord Layer.fire).map
        fun p => teleport p.2.mapCoord p.1
      let out := runMaps getCell players fireCounter grown.1 rest
      ⟨(mapName, grown.1) :: out.broadcasts, tps ++ out.teleports, out.halted⟩

/-- One firing of the `updateMap` interval (source lines 73-99): increment
the shrink counter, clear the shared fire set, and run the per-map loop;
returns the new counter and the tick's observable outcome. -/
def updateMapTick (getCell : MapCoord → Layer → Bool)
    (players : List (String × Player))
    (arenaOfMaps : List (String × List RectSet)) (fireCounter : Nat) :
    Nat × ArenaTickOut :=
  (fireCounter + 1, runMaps getCell players (fireCounter + 1) [] arenaOfMaps)

/-- JavaScript value of a field of an inbound PlayerSyncMessage: a string,
`undefined`, or a proper map coordinate object. -/
inductive JsVal where
  | str (s : String)
  | undef
  | coord (c : MapCoord)
deriving DecidableEq

/-- Inbound player-position message as destructured by the handler. -/
structure PlayerSyncMsg where
  playerID : JsVal
  mapCoord : JsVal
deriving DecidableEq

/-- Observable outcome of `onPlayerUpdate`: dropped with a warning
(non-string playerID), dropped silently (the `mapCoord === 'undefined'`
string comparison matched), completed with the ordered list of layers
queried and the teleports performed, or a TypeError thrown when the layer
lookup ran on a value that is not a coordinate. -/
inductive HandlerOutcome where
  | droppedWarned
  | droppedSilent
  | completed (queried : List Layer) (teleports : List (String × MapCoord))
  | threwAtLayerCheck (layer : Layer)
deriving DecidableEq

/-- onPlayerUpdate (source lines 253-278): validate that `playerID` is a
string (warn and drop otherwise), compare `mapCoord` against the string
literal "undefined" (drop silently on a match), then query the bullet
layer and, only if it missed, the fire layer, teleporting on either hit.
The bullet registry is readable by the handler and is never touched. The
layer lookup applied to a non-coordinate value faults, modelled from the
spec for the external Geometry Lookup, which dereferences the coordinate's
fields. -/
def onPlayerUpdate (getCell : MapCoord → Layer → Bool)
    (bulletsReg : List (Nat × Bullet)) (msg : PlayerSyncMsg) :
    HandlerOutcome × List (Nat × Bullet) :=
  match msg.playerID with
  | JsVal.str playerID =>
    if msg.mapCoord = JsVal.str "undefined" then
      (HandlerOutcome.droppedSilent, bulletsReg)
    else
      match msg.mapCoord with
      | JsVal.coord mapCoord =>
        if getCell mapCoord Layer.bullet then
          (HandlerOutcome.completed [Layer.bullet] [teleport mapCoord playerID],
            bulletsReg)
        else if getCell mapCoord Layer.fire then
          (HandlerOutcome.completed [Layer.bullet, Layer.fire]
            [teleport mapCoord playerID], bulletsReg)
        else
          (HandlerOutcome.completed [Layer.bullet, Layer.fire] [], bulletsReg)
      | _ => (HandlerOutcome.threwAtLayerCheck Layer.bullet, bulletsReg)
  | _ => (HandlerOutcome.droppedWarned, bulletsReg)

/-- Result of the listener registered in `initialize` (source lines
101-107): the try/catch wrapper turns any fault of `onPlayerUpdate` into a
logged error, so no fault reaches the event feed. -/
inductive ListenerOutcome where
  | handled (h : HandlerOutcome)
  | loggedError
deriving DecidableEq

/-- The registered player-update listener (source lines 101-107). -/
def playerUpdateListener (getCell : MapCoord → Layer → Bool)
    (bulletsReg : List (Nat × Bullet)) (msg : PlayerSyncMsg) :
    ListenerOutcome × List (Nat × Bullet) :=
  match onPlayerUpdate getCell bulletsReg msg with
  | (HandlerOutcome.threwAtLayerCheck _, bs) => (ListenerOutcome.loggedError, bs)
  | (o, bs) => (ListenerOutcome.handled o, bs)

/-- Concrete arena with one 9 by 9 rectangle on map m, for witnesses. -/
def exArena : List (String × List CellSet) := [("m", [⟨[⟨0, 0, some 9, some 9⟩]⟩])]

/-- Concrete fresh extension state over `exArena`, for witnesses. -/
def exState : BRState := ⟨exArena, [], 0, [], []⟩

/-- Concrete state after a successful attack from (3,3) facing U at time 0
with a cooldown of 10, for witnesses. -/
def exStateAfter : BRState :=
  ⟨exArena, [(0, ⟨Facing.U, ⟨"m", 3, 4⟩, 0⟩)], 1, ["p"], [(10, "p")]⟩

/-- Concrete one-bullet registry whose bullet is one tick from expiry, for
witnesses. -/
def exBullets : List (Nat × Bullet) := [(0, ⟨Facing.U, ⟨"m", 3, 3⟩, 4⟩)]

/-- Inversion of a successful attack: the origin was inside the arena, the
player held no cooldown, and the post-state extends the cooldown set, the
pending releases, the bullet registry and the ID counter exactly once. -/
theorem c2s_attack_true_elim {cooldownMs now : Nat} {playerID : String}
    {mapCoord : MapCoord} {facing : Facing} {s s1 : BRState}
    (h : c2s_attack cooldownMs now playerID mapCoord facing s = some (true, s1)) :
    insideMap s.arenaOfMaps mapCoord = some true ∧ playerID ∉ s.cooldown ∧
    s1 = { s with
      cooldown := s.cooldown ++ [playerID],
      pending := s.pending ++ [(now + cooldownMs, playerID)],
      bulletID := s.bulletID + 1,
      bullets := s.bullets ++ [(s.bulletID, ⟨facing, spawnCoord mapCoord facing, 0⟩)] } := by
  simp only [c2s_attack, MapCoord.fromObject] at h
  cases hin : insideMap s.arenaOfMaps mapCoord with
  | none => rw [hin] at h; exact absurd h (by simp)
  | some inside =>
    rw [hin] at h
    cases inside with
    | false => simp at h
    | true =>
      by_cases hmem : playerID ∈ s.cooldown
      · simp [hmem] at h
      · simp [hmem] at h
        exact ⟨rfl, hmem, h.symm⟩

/-- Erasing cooldown entries of other players never changes the number of
occurrences of a given player in the cooldown set. -/
theorem count_foldl_erase (pid : String) :
    ∀ (l : List (Nat × String)) (c0 : List String),
      (∀ e ∈ l, e.2 ≠ pid) →
      (l.foldl (fun cdn e => cdn.erase e.2) c0).count pid = c0.count pid := by
  intro l
  induction l with
  | nil => intro c0 _; rfl
  | cons e rest ih =>
    intro c0 h
    rw [List.foldl_cons, ih _ (fun q hq => h q (List.mem_cons_of_mem _ hq))]
    exact List.count_erase_of_ne (Ne.symm (h e (List.mem_cons_self _ _))) c0

/-- The collision scan only ever deletes bullets: every registry entry
surviving it was present before. -/
theorem collisionScan_subset (tickY : Int) :
    ∀ (players : List (String × Player)) (bullets : List (Nat × Bullet))
      (tps : List (String × MapCoord)) (cleared : Bool) (q : Nat × Bullet),
      q ∈ (collisionScan tickY players bullets tps cleared).1 → q ∈ bullets := by
  intro players
  induction players with
  | nil => intro bullets tps cleared q hq; simpa [collisionScan] using hq
  | cons pp rest ih =>
    intro bullets tps cleared q hq
    rw [collisionScan] at hq
    cases hf : bullets.find? (fun r =>
        decide (pp.2.mapCoord.x = r.2.bulletCoord.x) &&
          decide (pp.2.mapCoord.y = tickY)) with
    | none =>
        rw [hf] at hq
        exact ih bullets tps cleared q hq
    | some r =>
        rw [hf] at hq
        exact List.mem_of_mem_filter (ih _ _ _ q hq)

/-- A registry entry of the updated map carrying the updated key carries
the updated value. -/
theorem mapUpdate_mem_key {bullets : List (Nat × Bullet)} {bid : Nat} {b : Bullet}
    {q : Nat × Bullet} (hq : q ∈ mapUpdate bullets bid b) (hk : q.1 = bid) :
    q.2 = b := by
  rcases List.mem_map.mp hq with ⟨p, hp, hpe⟩
  by_cases hpb : p.1 = bid
  · rw [if_pos hpb] at hpe
    rw [← hpe]
  · rw [if_neg hpb] at hpe
    subst hpe
    exact absurd hk hpb

/-- C4: for every arena rectangle (x,y,w,h) and every shrink-counter value
k, the arena tick emits exactly the four fire strips top (x, y, w, hBound),
bottom (x, y+h-hBound, w, hBound), left (x, y, wBound, h) and right
(x+w-wBound, y, wBound, h) with wBound = min(k, floor(w/2)) and hBound =
min(k, floor(h/2)); the computed border width and height never exceed half
the rectangle's corresponding dimension. -/
theorem c4_updateEdge_emits_clamped_strips (x y : Int) (w h k : Nat)
    (fires : List Rect) :
    (updateEdge fires [⟨[⟨x, y, w, h⟩]⟩] k).1 =
      fires ++
        [⟨x, y, w, min k (h / 2)⟩,
         ⟨x, y + (h : Int) - ((min k (h / 2) : Nat) : Int), w, min k (h / 2)⟩,
         ⟨x, y, min k (w / 2), h⟩,
         ⟨x + (w : Int) - ((min k (w / 2) : Nat) : Int), y, min k (w / 2), h⟩]
  ∧ min k (w / 2) ≤ w / 2 ∧ min k (h / 2) ≤ h / 2 := by
  refine ⟨?_, Nat.min_le_right _ _, Nat.min_le_right _ _⟩
  simp [updateEdge]

/-- C1 fails on the code: on the tick of bullet 1, the player alice stands
exactly on bullet 1's new position (5,7), and alice is indeed relocated to
(1,1) of her map; but because the scan compares the player's y against the
ticking closure's coordinate for every registry bullet, bullet 0 (at x = 5
but y = 2) is the first match and is deleted instead, while the colliding
bullet 1 stays registered (its own interval being cleared). -/
theorem c1_collision_removes_wrong_bullet :
    updateBulletTick (fun _ _ => false) [("alice", ⟨⟨"m", 5, 7⟩⟩)]
      [("m", [⟨[⟨0, 0, some 20, some 20⟩]⟩])] 1
      [(0, ⟨Facing.R, ⟨"m", 5, 2⟩, 0⟩), (1, ⟨Facing.R, ⟨"m", 4, 7⟩, 0⟩)] =
      some ⟨[(1, ⟨Facing.R, ⟨"m", 5, 7⟩, 1⟩)], [("alice", ⟨"m", 1, 1⟩)], true, none⟩
  ∧ (advanceBullet ⟨Facing.R, ⟨"m", 4, 7⟩, 0⟩).bulletCoord = (⟨"m", 5, 7⟩ : MapCoord) := by
  decide

/-- C2 fails on the code: with map A holding a 2 by 2 rectangle (fully
consumed at the very first tick) and map B holding a 10 by 10 rectangle
(still growing, as the second conjunct shows), the first arena tick halts
the whole scheduler immediately and pushes no fire-layer broadcast at all,
not even the final state of map A. -/
theorem c2_shrinker_halts_early_without_final_broadcast :
    updateMapTick (fun _ _ => false) []
      [("A", [⟨[⟨0, 0, 2, 2⟩]⟩]), ("B", [⟨[⟨0, 0, 10, 10⟩]⟩])] 0 =
      (1, ⟨[], [], true⟩)
  ∧ (updateEdge [] [⟨[⟨0, 0, 10, 10⟩]⟩] 1).2 = true := by
  decide

/-- C8 fails on the code for the absent-coordinate half: a message with a
string playerID but an `undefined` coordinate is not dropped by the
`mapCoord === 'undefined'` guard (which compares against the string
literal) and reaches the bullet-layer lookup, which faults; only the
try/catch wrapper of the registered listener turns the fault into a logged
error. The non-string playerID half behaves as claimed. -/
theorem c8_absent_mapCoord_not_dropped :
    onPlayerUpdate (fun _ _ => false) [] ⟨JsVal.str "alice", JsVal.undef⟩ =
      (HandlerOutcome.threwAtLayerCheck Layer.bullet, [])
  ∧ playerUpdateListener (fun _ _ => false) [] ⟨JsVal.str "alice", JsVal.undef⟩ =
      (ListenerOutcome.loggedError, [])
  ∧ onPlayerUpdate (fun _ _ => false) [] ⟨JsVal.undef, JsVal.coord ⟨"m", 1, 1⟩⟩ =
      (HandlerOutcome.droppedWarned, []) := by
  decide

/-- C9: for every well-formed player-position event the hazard reactor
queries the bullet layer first and the fire layer only if the bullet layer
missed, relocates the player to (1,1) of the event's map on either match
and returns immediately, and returns the bullet registry untouched: it
never removes a bullet itself. -/
theorem c9_hazard_reactor_layer_order (getCell : MapCoord → Layer → Bool)
    (bulletsReg : List (Nat × Bullet)) (playerID : String) (c : MapCoord) :
    onPlayerUpdate getCell bulletsReg ⟨JsVal.str playerID, JsVal.coord c⟩ =
      ((if getCell c Layer.bullet then
          HandlerOutcome.completed [Layer.bullet] [teleport c playerID]
        else if getCell c Layer.fire then
          HandlerOutcome.completed [Layer.bullet, Layer.fire] [teleport c playerID]
        else HandlerOutcome.completed [Layer.bullet, Layer.fire] []), bulletsReg) := by
  by_cases hb : getCell c Layer.bullet
  · simp [onPlayerUpdate, hb]
  · by_cases hf : getCell c Layer.fire
    · simp [onPlayerUpdate, hb, hf]
    · simp [onPlayerUpdate, hb, hf]

/-- C7: an attack whose origin lies outside every arena rectangle of the
origin's (registered) map returns false and creates no bullet; the call
completes without surfacing an error. -/
theorem c7_attack_outside_arena_rejected (cooldownMs now : Nat)
    (playerID : String) (mapCoord : MapCoord) (facing : Facing) (s : BRState)
    (h : insideMap s.arenaOfMaps mapCoord = some false) :
    (c2s_attack cooldownMs now playerID mapCoord facing s).map Prod.fst = some false
  ∧ (c2s_attack cooldownMs now playerID mapCoord facing s).map (fun r => r.2.bullets) =
      some s.bullets := by
  simp only [c2s_attack, MapCoord.fromObject]
  rw [h]
  simp

/-- C7 witness: the concrete origin (50,50) lies outside the 9 by 9 arena
rectangle of map m, and the attack is rejected without creating a bullet. -/
theorem c7_attack_outside_arena_rejected_witness :
    (c2s_attack 10 0 "p" ⟨"m", 50, 50⟩ Facing.U exState).map Prod.fst = some false
  ∧ (c2s_attack 10 0 "p" ⟨"m", 50, 50⟩ Facing.U exState).map (fun r => r.2.bullets) =
      some exState.bullets :=
  c7_attack_outside_arena_rejected 10 0 "p" ⟨"m", 50, 50⟩ Facing.U exState (by decide)

/-- C10: an attack whose origin lies outside every arena rectangle of the
origin's map leaves the whole simulation state unchanged - in particular
the cooldown set, the pending releases, the bullet registry and the bullet
ID counter are exactly as before the call. -/
theorem c10_attack_outside_arena_frame (cooldownMs now : Nat)
    (playerID : String) (mapCoord : MapCoord) (facing : Facing) (s : BRState)
    (h : insideMap s.arenaOfMaps mapCoord = some false) :
    c2s_attack cooldownMs now playerID mapCoord facing s = some (false, s) := by
  simp only [c2s_attack, MapCoord.fromObject]
  rw [h]
  simp

/-- C10 witness: rejecting an attack from (50,50) on a state that already
holds a bullet, a cooldown and a pending release changes nothing. -/
theorem c10_attack_outside_arena_frame_witness :
    c2s_attack 10 3 "q" ⟨"m", 50, 50⟩ Facing.L exStateAfter =
      some (false, exStateAfter) :=
  c10_attack_outside_arena_frame 10 3 "q" ⟨"m", 50, 50⟩ Facing.L exStateAfter (by decide)

/-- C6: every successful attack at origin C facing D registers, under the
current bullet ID and with age 0, a bullet whose first recorded position
is C + unit(D) and not C itself, the facing-to-displacement mapping being
fixed as U = (0,+1), D = (0,-1), R = (+1,0), L = (-1,0). -/
theorem c6_spawn_offset_one_step (cooldownMs now : Nat) (playerID : String)
    (c : MapCoord) (facing : Facing) (s s1 : BRState)
    (h : c2s_attack cooldownMs now playerID c facing s = some (true, s1)) :
    s1.bullets = s.bullets ++ [(s.bulletID, ⟨facing, spawnCoord c facing, 0⟩)]
  ∧ spawnCoord c facing =
      { c with x := c.x + (Facing2Direction facing).1,
               y := c.y + (Facing2Direction facing).2 }
  ∧ Facing2Direction Facing.U = (0, 1)
  ∧ Facing2Direction Facing.D = (0, -1)
  ∧ Facing2Direction Facing.R = (1, 0)
  ∧ Facing2Direction Facing.L = (-1, 0)
  ∧ spawnCoord c facing ≠ c := by
  obtain ⟨-, -, hs1⟩ := c2s_attack_true_elim h
  subst hs1
  refine ⟨rfl, rfl, rfl, rfl, rfl, rfl, ?_⟩
  cases facing with
  | U =>
      intro hEq
      have hy := congrArg MapCoord.y hEq
      simp only [spawnCoord, Facing2Direction, MapCoord.copy] at hy
      omega
  | D =>
      intro hEq
      have hy := congrArg MapCoord.y hEq
      simp only [spawnCoord, Facing2Direction, MapCoord.copy] at hy
      omega
  | R =>
      intro hEq
      have hx := congrArg MapCoord.x hEq
      simp only [spawnCoord, Facing2Direction, MapCoord.copy] at hx
      omega
  | L =>
      intro hEq
      have hx := congrArg MapCoord.x hEq
      simp only [spawnCoord, Facing2Direction, MapCoord.copy] at hx
      omega

/-- C6 witness: the successful attack from (3,3) facing U on the fresh
state registers bullet 0 at (3,4) with age 0. -/
theorem c6_spawn_offset_one_step_witness :
    exStateAfter.bullets =
      exState.bullets ++
        [(exState.bulletID, ⟨Facing.U, spawnCoord ⟨"m", 3, 3⟩ Facing.U, 0⟩)]
  ∧ spawnCoord ⟨"m", 3, 3⟩ Facing.U =
      { (⟨"m", 3, 3⟩ : MapCoord) with
          x := (⟨"m", 3, 3⟩ : MapCoord).x + (Facing2Direction Facing.U).1,
          y := (⟨"m", 3, 3⟩ : MapCoord).y + (Facing2Direction Facing.U).2 }
  ∧ Facing2Direction Facing.U = (0, 1)
  ∧ Facing2Direction Facing.D = (0, -1)
  ∧ Facing2Direction Facing.R = (1, 0)
  ∧ Facing2Direction Facing.L = (-1, 0)
  ∧ spawnCoord ⟨"m", 3, 3⟩ Facing.U ≠ ⟨"m", 3, 3⟩ :=
  c6_spawn_offset_one_step 10 0 "p" ⟨"m", 3, 3⟩ Facing.U exState exStateAfter
    (by decide)

/-- C5: a bullet tick advances the bullet by its facing's unit vector and
increments its age by exactly 1; the termination conditions are evaluated
in the order age at the lifetime (decided before the bounds check, even
when the latter would fault), then new position outside the arena
(regardless of the obstacle layer), then new position on an obstacle cell,
and any true condition removes the bullet and ends the tick with no
collision checks and no teleports; a bullet surviving the tick carries
exactly the advanced value and its age stays strictly below the lifetime,
so the bullet is removed at the tick where its age reaches the configured
lifetime and never later. -/
theorem c5_bullet_tick_advance_and_termination
    (getCell : MapCoord → Layer → Bool) (players : List (String × Player))
    (arenaOfMaps : List (String × List CellSet)) (bid : Nat)
    (bullets : List (Nat × Bullet)) (b : Bullet)
    (hb : bullets.lookup bid = some b) :
    advanceBullet b =
      { b with
          bulletCoord :=
            { b.bulletCoord with
                x := b.bulletCoord.x + (Facing2Direction b.facing).1,
                y := b.bulletCoord.y + (Facing2Direction b.facing).2 },
          duration := b.duration + 1 }
  ∧ (b.duration + 1 ≥ BULLET_LIFE →
      updateBulletTick getCell players arenaOfMaps bid bullets =
        some ⟨(mapUpdate bullets bid (advanceBullet b)).filter (fun q => q.1 != bid),
          [], true, some RemoveReason.expired⟩)
  ∧ (b.duration + 1 < BULLET_LIFE →
      insideMap arenaOfMaps (advanceBullet b).bulletCoord = some false →
      updateBulletTick getCell players arenaOfMaps bid bullets =
        some ⟨(mapUpdate bullets bid (advanceBullet b)).filter (fun q => q.1 != bid),
          [], true, some RemoveReason.outsideArena⟩)
  ∧ (b.duration + 1 < BULLET_LIFE →
      insideMap arenaOfMaps (advanceBullet b).bulletCoord = some true →
      getCell (advanceBullet b).bulletCoord Layer.obstacle = true →
      updateBulletTick getCell players arenaOfMaps bid bullets =
        some ⟨(mapUpdate bullets bid (advanceBullet b)).filter (fun q => q.1 != bid),
          [], true, some RemoveReason.obstacle⟩)
  ∧ (∀ res, updateBulletTick getCell players arenaOfMaps bid bullets = some res →
      (∀ q ∈ res.bullets, q.1 = bid → q.2 = advanceBullet b)
      ∧ ((∃ q ∈ res.bullets, q.1 = bid) → b.duration + 1 < BULLET_LIFE)) := by
  refine ⟨rfl, ?_, ?_, ?_, ?_⟩
  · intro hexp
    have hexp2 : BULLET_LIFE ≤ (advanceBullet b).duration := hexp
    simp only [updateBulletTick, hb, ge_iff_le]
    rw [if_pos hexp2]
  · intro hlt hin
    have hlt2 : ¬ BULLET_LIFE ≤ (advanceBullet b).duration := Nat.not_le.mpr hlt
    simp only [updateBulletTick, hb, ge_iff_le]
    rw [if_neg hlt2, hin]
    rfl
  · intro hlt hin hobs
    have hlt2 : ¬ BULLET_LIFE ≤ (advanceBullet b).duration := Nat.not_le.mpr hlt
    simp only [updateBulletTick, hb, ge_iff_le]
    rw [if_neg hlt2, hin]
    simp only [Bool.not_true, Bool.false_eq_true, if_false, hobs, if_true]
  · intro res hres
    simp only [updateBulletTick, hb, ge_iff_le] at hres
    by_cases hexp : BULLET_LIFE ≤ (advanceBullet b).duration
    · rw [if_pos hexp] at hres
      have hres2 := Option.some.inj hres
      subst hres2
      constructor
      · intro q hq hk
        exact absurd hk (by simpa using List.of_mem_filter hq)
      · rintro ⟨q, hq, hk⟩
        exact absurd hk (by simpa using List.of_mem_filter hq)
    · rw [if_neg hexp] at hres
      have hlt : b.duration + 1 < BULLET_LIFE := Nat.not_le.mp hexp
      cases hin : insideMap arenaOfMaps (advanceBullet b).bulletCoord with
      | none => rw [hin] at hres; exact absurd hres (by simp)
      | some inside =>
        rw [hin] at hres
        cases inside with
        | false =>
            simp only [Bool.not_false, if_true] at hres
            have hres2 := Option.some.inj hres
            subst hres2
            constructor
            · intro q hq hk
              exact absurd hk (by simpa using List.of_mem_filter hq)
            · intro _
              exact hlt
        | true =>
            simp only [Bool.not_true, Bool.false_eq_true, if_false] at hres
            by_cases hobs : getCell (advanceBullet b).bulletCoord Layer.obstacle
            · rw [if_pos hobs] at hres
              have hres2 := Option.some.inj hres
              subst hres2
              constructor
              · intro q hq hk
                exact absurd hk (by simpa using List.of_mem_filter hq)
              · intro _
                exact hlt
            · rw [if_neg hobs] at hres
              have hres2 := Option.some.inj hres
              subst hres2
              constructor
              · intro q hq hk
                have hq2 := collisionScan_subset (advanceBullet b).bulletCoord.y
                  players (mapUpdate bullets bid (advanceBullet b)) [] false q hq
                exact mapUpdate_mem_key hq2 hk
              · intro _
                exact hlt

/-- C5 witness: the one-bullet registry whose bullet has age 4 sees that
bullet expire on its next tick (age 5 = lifetime) and be removed with no
collision checks. -/
theorem c5_bullet_tick_advance_and_termination_witness :
    updateBulletTick (fun _ _ => false) [] exArena 0 exBullets =
      some ⟨[], [], true, some RemoveReason.expired⟩ := by
  have h := (c5_bullet_tick_advance_and_termination (fun _ _ => false) [] exArena 0
      exBullets ⟨Facing.U, ⟨"m", 3, 3⟩, 4⟩ (by decide)).2.1 (by decide)
  rw [h]
  decide

/-- C3: after a successful attack at time t, the player holds a cooldown
entry with its release scheduled at t plus the cooldown duration; a second
attack by that player at any time t2 inside the window is denied (returns
false), and at any time t3 at or past the window's end the entry has been
released automatically and an attack is permitted again (returns true).
The cooldown duration is a parameter because its constant lives in the
extension's client-side common module, outside the embedded source. -/
theorem c3_attack_cooldown_gate
    (cooldownMs t t2 t3 : Nat) (playerID : String) (cA cB cC : MapCoord)
    (fA fB fC : Facing) (s s1 : BRState)
    (hsucc : c2s_attack cooldownMs t playerID cA fA s = some (true, s1))
    (hnp : ∀ e ∈ s.pending, e.2 ≠ playerID)
    (ht2a : t ≤ t2) (ht2b : t2 < t + cooldownMs) (ht3 : t + cooldownMs ≤ t3)
    (hinB : insideMap s.arenaOfMaps cB = some true)
    (hinC : insideMap s.arenaOfMaps cC = some true) :
    playerID ∈ s1.cooldown
  ∧ (t + cooldownMs, playerID) ∈ s1.pending
  ∧ (c2s_attack cooldownMs t2 playerID cB fB (runTimersUpTo t2 s1)).map Prod.fst =
      some false
  ∧ playerID ∉ (runTimersUpTo t3 s1).cooldown
  ∧ (c2s_attack cooldownMs t3 playerID cC fC (runTimersUpTo t3 s1)).map Prod.fst =
      some true := by
  obtain ⟨hinA, hmem0, hs1⟩ := c2s_attack_true_elim hsucc
  have hcool1 : s1.cooldown = s.cooldown ++ [playerID] := by rw [hs1]
  have hpend1 : s1.pending = s.pending ++ [(t + cooldownMs, playerID)] := by rw [hs1]
  have harena1 : s1.arenaOfMaps = s.arenaOfMaps := by rw [hs1]
  have hs2cool : (runTimersUpTo t2 s1).cooldown =
      ((s.pending ++ [(t + cooldownMs, playerID)]).filter fun e =>
          decide (e.1 ≤ t2)).foldl (fun cdn e => cdn.erase e.2)
        (s.cooldown ++ [playerID]) := by
    rw [show (runTimersUpTo t2 s1).cooldown =
        (s1.pending.filter fun e => decide (e.1 ≤ t2)).foldl
          (fun cdn e => cdn.erase e.2) s1.cooldown from rfl, hcool1, hpend1]
  have hfilt2 : (s.pending ++ [(t + cooldownMs, playerID)]).filter
      (fun e => decide (e.1 ≤ t2)) =
      s.pending.filter fun e => decide (e.1 ≤ t2) := by
    rw [List.filter_append]
    have hc : ¬ (t + cooldownMs ≤ t2) := by omega
    simp [hc]
  have hmem2 : playerID ∈ (runTimersUpTo t2 s1).cooldown := by
    rw [← List.count_pos_iff, hs2cool, hfilt2,
      count_foldl_erase playerID _ _
        (fun e he => hnp e (List.mem_of_mem_filter he))]
    simp
  have hs2arena : (runTimersUpTo t2 s1).arenaOfMaps = s.arenaOfMaps := by
    rw [show (runTimersUpTo t2 s1).arenaOfMaps = s1.arenaOfMaps from rfl, harena1]
  have hatk2 : c2s_attack cooldownMs t2 playerID cB fB (runTimersUpTo t2 s1) =
      some (false, runTimersUpTo t2 s1) := by
    simp only [c2s_attack, MapCoord.fromObject]
    rw [hs2arena, hinB]
    simp [hmem2]
  have hs3cool : (runTimersUpTo t3 s1).cooldown =
      ((s.pending ++ [(t + cooldownMs, playerID)]).filter fun e =>
          decide (e.1 ≤ t3)).foldl (fun cdn e => cdn.erase e.2)
        (s.cooldown ++ [playerID]) := by
    rw [show (runTimersUpTo t3 s1).cooldown =
        (s1.pending.filter fun e => decide (e.1 ≤ t3)).foldl
          (fun cdn e => cdn.erase e.2) s1.cooldown from rfl, hcool1, hpend1]
  have hfilt3 : (s.pending ++ [(t + cooldownMs, playerID)]).filter
      (fun e => decide (e.1 ≤ t3)) =
      (s.pending.filter fun e => decide (e.1 ≤ t3)) ++
        [(t + cooldownMs, playerID)] := by
    rw [List.filter_append]
    simp [ht3]
  have hcnt3 : ((runTimersUpTo t3 s1).cooldown).count playerID = 0 := by
    rw [hs3cool, hfilt3, List.foldl_append, List.foldl_cons, List.foldl_nil,
      List.count_erase_self,
      count_foldl_erase playerID _ _
        (fun e he => hnp e (List.mem_of_mem_filter he))]
    simp [List.count_eq_zero.mpr hmem0]
  have hnotmem3 : playerID ∉ (runTimersUpTo t3 s1).cooldown :=
    List.count_eq_zero.mp hcnt3
  have hs3arena : (runTimersUpTo t3 s1).arenaOfMaps = s.arenaOfMaps := by
    rw [show (runTimersUpTo t3 s1).arenaOfMaps = s1.arenaOfMaps from rfl, harena1]
  refine ⟨?_, ?_, ?_, hnotmem3, ?_⟩
  · rw [hcool1]
    simp
  · rw [hpend1]
    simp
  · rw [hatk2]
    rfl
  · simp only [c2s_attack, MapCoord.fromObject]
    rw [hs3arena, hinC]
    simp [hnotmem3]

/-- C3 witness: with a cooldown of 10 the successful attack at time 0
registers the entry; a second attack at time 5 is denied, and at time 10
the entry has been released and the attack is permitted again. -/
theorem c3_attack_cooldown_gate_witness :
    "p" ∈ exStateAfter.cooldown
  ∧ (10, "p") ∈ exStateAfter.pending
  ∧ (c2s_attack 10 5 "p" ⟨"m", 3, 3⟩ Facing.U
      (runTimersUpTo 5 exStateAfter)).map Prod.fst = some false
  ∧ "p" ∉ (runTimersUpTo 10 exStateAfter).cooldown
  ∧ (c2s_attack 10 10 "p" ⟨"m", 3, 3⟩ Facing.U
      (runTimersUpTo 10 exStateAfter)).map Prod.fst = some true :=
  c3_attack_cooldown_gate 10 0 5 10 "p" ⟨"m", 3, 3⟩ ⟨"m", 3, 3⟩ ⟨"m", 3, 3⟩
    Facing.U Facing.U Facing.U exState exStateAfter (by decide) (by decide)
    (by decide) (by decide) (by decide) (by decide) (by decide)
